import Mathlib

/-!
Shallow embedding of the watchlist/recommendation reconciliation core of
`src/app.py` (a Streamlit media-recommendation front-end), together with
theorems settling the behavioural claims about it.

Conventions of the embedding:
* a Python media entry is either a legacy bare title string or the dict
  `{"title", "media_type", "tmdb_id"}` produced by `create_media_entry`;
  this is the inductive `MediaEntry` below;
* the per-user JSON record becomes the structure `UserData`; a missing key
  read through `.get(key, default)` is identified with its default value;
* Streamlit toasts / `st.error` calls become `Bool` / `Option String`
  results; thread pools become an explicit completion-order argument.
-/

namespace App

/-- A list entry of the user database: legacy bare string or the structured
dict built by `create_media_entry` (`{"title", "media_type", "tmdb_id"}`). -/
inductive MediaEntry where
  | legacy (title : String)
  | entry (title : String) (media_type : String) (tmdb_id : Option Int)
deriving DecidableEq, Repr

/-- `create_media_entry(title, media_type, tmdb_id=None)` (src/app.py:1056). -/
def create_media_entry (title : String) (media_type : String)
    (tmdb_id : Option Int := none) : MediaEntry :=
  MediaEntry.entry title media_type tmdb_id

/-- `is_media_entry_dict(entry)` (src/app.py:1075): dict with "title" and
"media_type" keys, i.e. the structured constructor. -/
def is_media_entry_dict : MediaEntry → Bool
  | MediaEntry.entry _ _ _ => true
  | MediaEntry.legacy _ => false

/-- `get_media_title(entry)` (src/app.py:1079): title of either format. -/
def get_media_title : MediaEntry → String
  | MediaEntry.legacy s => s
  | MediaEntry.entry t _ _ => t

/-- `find_media_in_list(title, media_list)` (src/app.py:1085): linear scan by
extracted title, first match wins, returns `(index, entry)` or `(None, None)`. -/
def find_media_in_list (title : String) : List MediaEntry → Option (Nat × MediaEntry)
  | [] => none
  | e :: rest =>
    if get_media_title e = title then some (0, e)
    else (find_media_in_list title rest).map (fun p => (p.1 + 1, p.2))

/-- The `watchlist` / `jellyseerr_available` sub-record `{movies, series}`. -/
structure Watchlist where
  movies : List MediaEntry
  series : List MediaEntry
deriving DecidableEq, Repr

/-- A per-user record of `database.json`.  Keys read via `.get(k, default)`
in the source are total fields here, absence identified with the default. -/
structure UserData where
  movies : List MediaEntry
  series : List MediaEntry
  do_not_recommend : List MediaEntry
  watchlist : Watchlist
  available_but_unwatched : List MediaEntry
  jellyseerr_available : Watchlist
  jellyfin_synced_at : Option String
  jellyfin_total_watched : Option Nat
deriving DecidableEq, Repr

/-- An ephemeral recommendation dict from the Gemini call, enriched in place
with `media_id` / `media_type` by the Jellyseerr lookup. -/
structure Rec where
  title : String
  year : Int
  reason : String
  media_id : Option Int := none
  media_type : Option String := none
deriving DecidableEq, Repr

/-! Section: Parallel enrichment engine (src/app.py:1503-1512, 1960-2003) -/

/-- Outcome of one `search_jellyseerr(title, session)` call as observed by a
worker: a first search result `(id, mediaType)`, an empty result / handled
network error (the function itself returns `(None, None)` for those), or an
unexpected exception escaping it. -/
inductive SearchOutcome where
  | found (media_id : Int) (media_type : String)
  | notFound
  | raised (msg : String)
deriving DecidableEq, Repr

/-- Result dict of `_enrich_recommendation_with_jellyseerr` (src/app.py:1503):
`{"title", "media_id", "media_type", "success"}`. -/
structure EnrichResult where
  title : String
  media_id : Option Int
  media_type : Option String
  success : Bool
deriving DecidableEq, Repr

/-- `_enrich_recommendation_with_jellyseerr(title, session)` (src/app.py:1503):
runs the search; every exception is caught and turned into a
`success: False` result, so the worker itself never raises. -/
def enrich_recommendation_with_jellyseerr (search : String → SearchOutcome)
    (title : String) : EnrichResult :=
  match search title with
  | SearchOutcome.found i t => ⟨title, some i, some t, true⟩
  | SearchOutcome.notFound => ⟨title, none, none, true⟩
  | SearchOutcome.raised _ => ⟨title, none, none, false⟩

/-- Body of the `as_completed` loop (src/app.py:1984-2001): copy the result
fields into the originating recommendation dict, nulling them on failure. -/
def apply_enrichment (r : Rec) (res : EnrichResult) : Rec :=
  if res.success then { r with media_id := res.media_id, media_type := res.media_type }
  else { r with media_id := none, media_type := none }

/-- The ThreadPoolExecutor / `as_completed` merge loop (src/app.py:1978-2001;
the same loop appears in `fetch_and_show_recommendations`, src/app.py:1562-1587).
`futures` maps each future to its originating `rec`, so each dict is enriched
with its own lookup's result; `enriched_recommendations.append(rec)` however
runs in completion order, which we make explicit as the index list `order`
(a permutation of `0..n-1` chosen by the scheduler). -/
def enrich_loop (recs : List Rec) (search : String → SearchOutcome)
    (order : List Nat) : List Rec :=
  order.filterMap (fun i =>
    (recs.get? i).map (fun r =>
      apply_enrichment r (enrich_recommendation_with_jellyseerr search r.title)))

/-! Section: Recommendation requester (src/app.py:545-584) -/

/-- What came back from the Gemini API call, as branched on by
`get_gemini_recommendations`: missing/empty response text, text that
`json.loads` rejects, successfully parsed JSON, or an exception from the
API client (quota or other). -/
inductive GeminiResponse where
  | noText
  | invalidJson
  | parsed (recs : List Rec)
  | apiError (quota : Bool)
deriving DecidableEq, Repr

/-- `get_gemini_recommendations(prompt)` (src/app.py:545): first component is
the Python return value (`None` or the parsed list), second the `st.error`
message shown, if any (`None` branch for empty text only logs a warning).
There is no retry decorator on this function: each branch returns at once. -/
def get_gemini_recommendations (apiKeyConfigured : Bool) (resp : GeminiResponse) :
    Option (List Rec) × Option String :=
  if apiKeyConfigured then
    match resp with
    | GeminiResponse.noText => (none, none)
    | GeminiResponse.invalidJson =>
        (none, some "Tekoälyn vastaus ei ole kelvollista JSON:ia. Yritä uudelleen.")
    | GeminiResponse.parsed recs => (some recs, none)
    | GeminiResponse.apiError true =>
        (none, some "Gemini API:n käyttörajat saavutettu. Yritä myöhemmin uudelleen.")
    | GeminiResponse.apiError false =>
        (none, some "Tekoälyltä suosituksia hakiessa virhe.")
  else (none, some "Gemini API-avainta ei ole asetettu palvelimelle.")

/-! Section: Exclusion set builder and prompt (src/app.py:455-543, 1928-1952) -/

/-- An element of a list handed to `build_prompt`: a dict (title kept only if
the "title" key is present), a tuple (first element if non-empty), a plain
string, or anything else (skipped). -/
inductive FlexItem where
  | fdict (title : Option String)
  | ftup (first : Option String)
  | fstr (s : String)
  | other
deriving DecidableEq, Repr

/-- `extract_titles_from_flexible_list(items_list)` inside `build_prompt`
(src/app.py:459-471): collect the titles, skipping unrecognized items. -/
def extract_titles_from_flexible_list (items : List FlexItem) : List String :=
  items.filterMap (fun item =>
    match item with
    | FlexItem.fdict t => t
    | FlexItem.ftup t => t
    | FlexItem.fstr s => some s
    | FlexItem.other => none)

/-- The titles placed inside the `<excluded_titles>` block of the prompt
(src/app.py:482-527): the four extracted title lists, one comma-joined line
each (an empty list renders as the placeholder line "ei yhtään", which
contributes no title). -/
def excluded_titles_of_prompt (watched_list watchlist do_not_recommend_list
    available_but_unwatched_list : List FlexItem) : List String :=
  extract_titles_from_flexible_list watched_list ++
  extract_titles_from_flexible_list watchlist ++
  extract_titles_from_flexible_list do_not_recommend_list ++
  extract_titles_from_flexible_list available_but_unwatched_list

/-- Titles of a database list through the compatibility helper. -/
def titles_of (l : List MediaEntry) : List String :=
  l.map get_media_title

/-- `full_watched_list = sorted(list(set(jellyfin_titles + manual_watched)))`
(src/app.py:1930-1947), where `manual_watched` is the manual movie titles
followed by the manual series titles. -/
def full_watched_list (jellyfin_titles : List String) (u : UserData) : List String :=
  List.mergeSort
    ((jellyfin_titles ++ (titles_of u.movies ++ titles_of u.series)).dedup)
    (fun a b => a ≤ b)

/-- Watchlist titles flattened for the prompt (src/app.py:1936-1940). -/
def watchlist_titles (u : UserData) : List String :=
  titles_of u.watchlist.movies ++ titles_of u.watchlist.series

/-- The exclusion-block titles produced by the recommendations fetch flow
(src/app.py:1928-1952 assembling the four lists, then `build_prompt`): every
list reaches `build_prompt` as plain title strings. -/
def prompt_excluded_titles (jellyfin_titles : List String) (u : UserData) : List String :=
  excluded_titles_of_prompt
    ((full_watched_list jellyfin_titles u).map FlexItem.fstr)
    ((watchlist_titles u).map FlexItem.fstr)
    ((titles_of u.do_not_recommend).map FlexItem.fstr)
    ((titles_of u.available_but_unwatched).map FlexItem.fstr)

/-! Section: Mutation handlers (src/app.py:1201-1392) -/

/-- `handle_watched_add(title, media_type_from_radio, tmdb_id)`
(src/app.py:1201): duplicate check via `find_media_in_list` on the target
list, append a fresh `create_media_entry` only when absent.  The returned
`Bool` is `true` for the "lisätty katsottuihin" toast and `false` for
"on jo listallasi" (the handler also filters the in-session recommendation
list on success; that UI state is outside the record model). -/
def handle_watched_add (title : String) (media_type_from_radio : String)
    (tmdb_id : Option Int) (u : UserData) : UserData × Bool :=
  let key_is_movies := media_type_from_radio = "Elokuva"
  let media_type_standard := if key_is_movies then "movie" else "tv"
  let target := if key_is_movies then u.movies else u.series
  match find_media_in_list title target with
  | none =>
    let media_entry := create_media_entry title media_type_standard tmdb_id
    if key_is_movies then ({ u with movies := u.movies ++ [media_entry] }, true)
    else ({ u with series := u.series ++ [media_entry] }, true)
  | some _ => (u, false)

/-- `handle_watchlist_mark_watched(title_to_mark, media_type_key)`
(src/app.py:1302): pop the entry from `watchlist[media_type_key]` (converting
a legacy string via `create_media_entry`), then append it to the watched list
of the same key — with no duplicate check on that destination list. -/
def handle_watchlist_mark_watched (title_to_mark : String)
    (media_type_key : String) (u : UserData) : UserData × Bool :=
  let watchlist_list :=
    if media_type_key = "movies" then u.watchlist.movies else u.watchlist.series
  match find_media_in_list title_to_mark watchlist_list with
  | some (idx, entry_to_move) =>
    let media_entry :=
      if is_media_entry_dict entry_to_move then entry_to_move
      else
        create_media_entry (get_media_title entry_to_move)
          (if media_type_key = "movies" then "movie" else "tv") none
    let remaining := watchlist_list.eraseIdx idx
    if media_type_key = "movies" then
      ({ u with watchlist := { u.watchlist with movies := remaining },
                movies := u.movies ++ [media_entry] }, true)
    else
      ({ u with watchlist := { u.watchlist with series := remaining },
                series := u.series ++ [media_entry] }, true)
  | none => (u, false)

/-- The watchlist-removal loop of `handle_blacklist_add` (src/app.py:1380-1386):
`for media_key in ["movies", "series"]`, remove the first entry whose title
matches and then `break` — at most one sub-list is touched. -/
def remove_from_watchlist_first (title : String) (wl : Watchlist) : Watchlist :=
  match find_media_in_list title wl.movies with
  | some (idx, _) => { wl with movies := wl.movies.eraseIdx idx }
  | none =>
    match find_media_in_list title wl.series with
    | some (idx, _) => { wl with series := wl.series.eraseIdx idx }
    | none => wl

/-- `handle_blacklist_add(title)` (src/app.py:1341): when the title is not yet
in `do_not_recommend`, append an entry (metadata pulled from the displayed
recommendation with that title when present, else defaults from the media-type
radio button), and run the watchlist-removal loop; otherwise no-op.  `Bool`
result: `true` for "lisätty estolistalle", `false` for "on jo estolistallasi". -/
def handle_blacklist_add (title : String) (media_type_from_radio : String)
    (recommendations : List Rec) (u : UserData) : UserData × Bool :=
  let media_type_standard :=
    if media_type_from_radio = "Elokuva" then "movie" else "tv"
  match find_media_in_list title u.do_not_recommend with
  | none =>
    let found_rec := recommendations.find? (fun r => r.title = title)
    let actual_media_type :=
      match found_rec with
      | some r => r.media_type.getD media_type_standard
      | none => media_type_standard
    let tmdb_id :=
      match found_rec with
      | some r => r.media_id
      | none => none
    let media_entry := create_media_entry title actual_media_type tmdb_id
    ({ u with do_not_recommend := u.do_not_recommend ++ [media_entry],
              watchlist := remove_from_watchlist_first title u.watchlist }, true)
  | some _ => (u, false)

/-! Section: Merge import (src/app.py:1415-1464) -/

/-- `deduplicate_list(items_list)` inside `merge_user_data_from_json`
(src/app.py:1430-1437): `seen_titles` is an insertion-ordered dict keyed by
extracted title, filled by `if title not in seen_titles`, so the first
occurrence of each title is kept, whatever its format. -/
def deduplicate_list (items : List MediaEntry) : List MediaEntry :=
  items.foldl
    (fun acc item =>
      if acc.any (fun e => get_media_title e = get_media_title item) then acc
      else acc ++ [item])
    []

/-- The record-level merge of `merge_user_data_from_json` (src/app.py:1439-1462):
concatenate-and-deduplicate the five lists, then rebuild `db[username]` as a
dict holding exactly `movies`, `series`, `do_not_recommend`, `watchlist`,
`jellyfin_synced_at`, `jellyfin_total_watched` — other keys of the old record
(`available_but_unwatched`, `jellyseerr_available`) are absent from the new
dict, i.e. their default empty values here. -/
def merge_user_data (current imported : UserData) : UserData :=
  { movies := deduplicate_list (current.movies ++ imported.movies)
    series := deduplicate_list (current.series ++ imported.series)
    do_not_recommend :=
      deduplicate_list (current.do_not_recommend ++ imported.do_not_recommend)
    watchlist :=
      { movies := deduplicate_list
          (current.watchlist.movies ++ imported.watchlist.movies)
        series := deduplicate_list
          (current.watchlist.series ++ imported.watchlist.series) }
    available_but_unwatched := []
    jellyseerr_available := { movies := [], series := [] }
    jellyfin_synced_at := current.jellyfin_synced_at
    jellyfin_total_watched := current.jellyfin_total_watched }

/-! Section: Document store (src/app.py:183-227) -/

/-- A Python value as handed to `save_manual_db`: the JSON-representable
shapes that occur in the database document. -/
inductive PyObj where
  | pdict (entries : List (String × PyObj))
  | plist (items : List PyObj)
  | pstr (s : String)
  | pint (n : Int)
  | pnull

/-- `isinstance(db, dict)` — the validation at the top of `save_manual_db`. -/
def isDict : PyObj → Bool
  | PyObj.pdict _ => true
  | _ => false

mutual

/-- `json.dump(db, ...)` rendering, modelled as a plain (non-pretty) JSON
string; the claims depend only on whether a write happens, not on the exact
indentation `json.dump(..., indent=4)` produces. -/
def serializePyObj : PyObj → String
  | PyObj.pdict entries => "\x7b" ++ serializeEntries entries ++ "\x7d"
  | PyObj.plist items => "[" ++ serializeItems items ++ "]"
  | PyObj.pstr s => "\"" ++ s ++ "\""
  | PyObj.pint n => toString n
  | PyObj.pnull => "null"

/-- Renders the key/value pairs of a dict. -/
def serializeEntries : List (String × PyObj) → String
  | [] => ""
  | [(k, v)] => "\"" ++ k ++ "\": " ++ serializePyObj v
  | (k, v) :: rest =>
    "\"" ++ k ++ "\": " ++ serializePyObj v ++ ", " ++ serializeEntries rest

/-- Renders the elements of a list. -/
def serializeItems : List PyObj → String
  | [] => ""
  | [v] => serializePyObj v
  | v :: rest => serializePyObj v ++ ", " ++ serializeItems rest

end

/-- The two on-disk files `save_manual_db` can touch: `database.json` and
`database.json.backup`; `none` is a missing file. -/
structure FileSystem where
  database_file : Option String
  backup_file : Option String
deriving DecidableEq, Repr

/-- `save_manual_db(db)` (src/app.py:202-227).  Inside the `try`: a non-dict
value raises `ValueError` before the backup copy, which the surrounding
`except Exception` catches (an `st.error` is shown) and the function returns
normally — nothing is written.  For a dict, the current `database.json` (if
present) is first copied to `database.json.backup`, then the file is
overwritten with the serialized document.  The `Bool` is `true` when an
error message was shown. -/
def save_manual_db (db : PyObj) (fs : FileSystem) : FileSystem × Bool :=
  if isDict db then
    let fs1 :=
      match fs.database_file with
      | some content => { fs with backup_file := some content }
      | none => fs
    ({ fs1 with database_file := some (serializePyObj db) }, false)
  else
    (fs, true)

/-! Section: Helper lemmas about the media entry model -/

theorem get_media_title_create (t m : String) (i : Option Int) :
    get_media_title (create_media_entry t m i) = t := rfl

theorem apply_enrichment_title (r : Rec) (res : EnrichResult) :
    (apply_enrichment r res).title = r.title := by
  unfold apply_enrichment
  split <;> rfl

theorem find_media_eq_none_iff (t : String) :
    ∀ l : List MediaEntry,
      find_media_in_list t l = none ↔ ∀ e ∈ l, get_media_title e ≠ t
  | [] => by simp [find_media_in_list]
  | e :: rest => by
    by_cases h : get_media_title e = t
    · simp [find_media_in_list, h]
    · simp only [find_media_in_list, if_neg h, Option.map_eq_none',
        List.mem_cons, find_media_eq_none_iff t rest]
      constructor
      · rintro hr x (rfl | hx)
        · exact h
        · exact hr x hx
      · intro hr x hx
        exact hr x (Or.inr hx)

theorem find_media_some_title (t : String) :
    ∀ (l : List MediaEntry) (i : Nat) (e : MediaEntry),
      find_media_in_list t l = some (i, e) → get_media_title e = t
  | [], _, _, h => by simp [find_media_in_list] at h
  | a :: rest, i, e, h => by
    by_cases ha : get_media_title a = t
    · simp only [find_media_in_list, if_pos ha, Option.some.injEq] at h
      obtain ⟨_, rfl⟩ := Prod.mk.injEq .. ▸ (Prod.ext_iff.mp h)
      exact ha
    · simp only [find_media_in_list, if_neg ha, Option.map_eq_some'] at h
      obtain ⟨⟨j, e0⟩, hj, he⟩ := h
      simp only [Prod.mk.injEq] at he
      exact he.2 ▸ find_media_some_title t rest j e0 hj

theorem find_media_some_mem (t : String) :
    ∀ (l : List MediaEntry) (i : Nat) (e : MediaEntry),
      find_media_in_list t l = some (i, e) → e ∈ l
  | [], _, _, h => by simp [find_media_in_list] at h
  | a :: rest, i, e, h => by
    by_cases ha : get_media_title a = t
    · simp only [find_media_in_list, if_pos ha, Option.some.injEq] at h
      obtain ⟨_, rfl⟩ := Prod.ext_iff.mp h
      exact List.mem_cons_self a rest
    · simp only [find_media_in_list, if_neg ha, Option.map_eq_some'] at h
      obtain ⟨⟨j, e0⟩, hj, he⟩ := h
      simp only [Prod.mk.injEq] at he
      exact List.mem_cons_of_mem a (he.2 ▸ find_media_some_mem t rest j e0 hj)

/-- After erasing the entry found by `find_media_in_list` from a list in which
the title occurs at most once, no entry with that title remains. -/
theorem erase_of_found (t : String) :
    ∀ (l : List MediaEntry) (i : Nat) (e : MediaEntry),
      find_media_in_list t l = some (i, e) →
      List.countP (fun x => get_media_title x = t) l ≤ 1 →
      ∀ x ∈ l.eraseIdx i, get_media_title x ≠ t
  | [], _, _, h, _ => by simp [find_media_in_list] at h
  | a :: rest, i, e, h, hc => by
    by_cases ha : get_media_title a = t
    · simp only [find_media_in_list, if_pos ha, Option.some.injEq] at h
      obtain ⟨hi, _⟩ := Prod.ext_iff.mp h
      subst hi
      simp only [List.eraseIdx_cons_zero]
      have : List.countP (fun x => get_media_title x = t) (a :: rest) =
          List.countP (fun x => get_media_title x = t) rest + 1 := by
        simp [List.countP_cons, ha]
      rw [this] at hc
      have hzero : List.countP (fun x => get_media_title x = t) rest = 0 := by omega
      intro x hx
      have := List.countP_eq_zero.mp hzero x hx
      simpa using this
    · simp only [find_media_in_list, if_neg ha, Option.map_eq_some'] at h
      obtain ⟨⟨j, e0⟩, hj, he⟩ := h
      obtain ⟨hi, _⟩ := Prod.ext_iff.mp he
      subst hi
      simp only [List.eraseIdx_cons_succ]
      intro x hx
      rcases List.mem_cons.mp hx with rfl | hx2
      · exact fun hxt => ha hxt
      · have hcr : List.countP (fun x => get_media_title x = t) rest ≤ 1 := by
          have : List.countP (fun x => get_media_title x = t) (a :: rest) =
              List.countP (fun x => get_media_title x = t) rest := by
            simp [List.countP_cons, ha]
          omega
        exact erase_of_found t rest j e0 hj hcr x hx2

/-- Submitting and collecting in the same order (completion order = input
order) reproduces the input sequence, each item enriched with its own result. -/
theorem enrich_loop_range (search : String → SearchOutcome) :
    ∀ recs : List Rec,
      enrich_loop recs search (List.range recs.length) =
        recs.map (fun r =>
          apply_enrichment r (enrich_recommendation_with_jellyseerr search r.title))
  | [] => by simp [enrich_loop]
  | r :: rs => by
    rw [List.length_cons, List.range_succ_eq_map]
    simp only [enrich_loop, List.filterMap_cons, List.get?, Option.map_some',
      List.filterMap_map, List.map_cons]
    congr 1
    have : ∀ i : Nat,
        (((r :: rs).get? (Nat.succ i)).map (fun x =>
          apply_enrichment x (enrich_recommendation_with_jellyseerr search x.title))) =
        ((rs.get? i).map (fun x =>
          apply_enrichment x (enrich_recommendation_with_jellyseerr search x.title))) :=
      fun i => rfl
    calc List.filterMap
          ((fun i => ((r :: rs).get? i).map (fun x =>
            apply_enrichment x (enrich_recommendation_with_jellyseerr search x.title))) ∘
            Nat.succ) (List.range rs.length)
        = enrich_loop rs search (List.range rs.length) := by
          unfold enrich_loop
          congr 1
      _ = rs.map (fun x =>
            apply_enrichment x (enrich_recommendation_with_jellyseerr search x.title)) :=
          enrich_loop_range search rs

/-- Any collection order that is a permutation of the submission indices
yields a permutation of the identity-merged enriched sequence. -/
theorem enrich_loop_perm (recs : List Rec) (search : String → SearchOutcome)
    (order : List Nat) (horder : order.Perm (List.range recs.length)) :
    (enrich_loop recs search order).Perm
      (recs.map (fun r =>
        apply_enrichment r (enrich_recommendation_with_jellyseerr search r.title))) := by
  have h := List.Perm.filterMap
    (fun i => (recs.get? i).map (fun r =>
      apply_enrichment r (enrich_recommendation_with_jellyseerr search r.title)))
    horder
  rw [show List.filterMap
      (fun i => (recs.get? i).map (fun r =>
        apply_enrichment r (enrich_recommendation_with_jellyseerr search r.title)))
      (List.range recs.length) = enrich_loop recs search (List.range recs.length)
    from rfl, enrich_loop_range search recs] at h
  exact h

/-! Section: Sample data used by concrete counterexamples and witnesses -/

def recA : Rec := { title := "A", year := 2020, reason := "r" }

def recB : Rec := { title := "B", year := 2021, reason := "r" }

def recC : Rec := { title := "C", year := 2022, reason := "r" }

/-- A search that finds nothing (every lookup returns `(None, None)`). -/
def search_none : String → SearchOutcome := fun _ => SearchOutcome.notFound

/-- A search in which exactly the lookup for "B" finds nothing, while "A" and
"C" resolve to concrete Jellyseerr results. -/
def search_one_bad : String → SearchOutcome := fun t =>
  if t = "A" then SearchOutcome.found 1 "movie"
  else if t = "C" then SearchOutcome.found 3 "tv"
  else SearchOutcome.notFound

/-- An all-empty user record. -/
def empty_user : UserData :=
  { movies := [], series := [], do_not_recommend := []
    watchlist := { movies := [], series := [] }
    available_but_unwatched := []
    jellyseerr_available := { movies := [], series := [] }
    jellyfin_synced_at := none, jellyfin_total_watched := none }

/-! Section: Claim C1 — enrichment output order -/

/-- Claim C1 as stated is false: with input `[recA, recB]` and the legitimate
completion order in which the second lookup finishes first, the enriched
output title order is `["B", "A"]`, not the input order `["A", "B"]`:
`enriched_recommendations.append(rec)` runs inside the `as_completed` loop,
so the output sequence follows completion order. -/
theorem c1_order_counterexample :
    ([1, 0] : List Nat).Perm (List.range [recA, recB].length) ∧
    (enrich_loop [recA, recB] search_none [1, 0]).map Rec.title ≠
      [recA, recB].map Rec.title := by
  constructor
  · decide
  · decide

/-- Claim C1 amended: each recommendation is enriched with the result of its
own lookup (results are merged back by identity via the futures map), and the
output is a permutation of the input sequence — but it is sequenced in
completion order, so the title order matches the input order only when the
completion order equals the submission order. -/
theorem c1_order_amended (recs : List Rec) (search : String → SearchOutcome)
    (order : List Nat) (horder : order.Perm (List.range recs.length)) :
    (enrich_loop recs search order).Perm
      (recs.map (fun r =>
        apply_enrichment r (enrich_recommendation_with_jellyseerr search r.title))) ∧
    enrich_loop recs search (List.range recs.length) =
      recs.map (fun r =>
        apply_enrichment r (enrich_recommendation_with_jellyseerr search r.title)) :=
  ⟨enrich_loop_perm recs search order horder, enrich_loop_range search recs⟩

/-- Concrete instantiation of the amended C1 theorem. -/
theorem c1_order_amended_witness :
    (enrich_loop [recA, recB] search_none [1, 0]).Perm
      ([recA, recB].map (fun r =>
        apply_enrichment r (enrich_recommendation_with_jellyseerr search_none r.title))) ∧
    enrich_loop [recA, recB] search_none (List.range [recA, recB].length) =
      [recA, recB].map (fun r =>
        apply_enrichment r (enrich_recommendation_with_jellyseerr search_none r.title)) :=
  c1_order_amended [recA, recB] search_none [1, 0] (by decide)

/-! Section: Claim C8 — enrichment fault isolation -/

/-- Claim C8: whatever the completion order, if the lookup for one title fails
(finds nothing or raises) while every other input title resolves, then no item
is dropped (output length equals input length), the failing title's item ends
with null `media_id`/`media_type`, and every other item carries its own
lookup's id and type.  The loop itself is total — every worker exception is
caught either inside `_enrich_recommendation_with_jellyseerr` or around
`future.result()` — so the overall call never raises. -/
theorem c8_fault_isolation (recs : List Rec) (search : String → SearchOutcome)
    (order : List Nat) (bad : String)
    (horder : order.Perm (List.range recs.length))
    (hbad : search bad = SearchOutcome.notFound ∨
      ∃ m, search bad = SearchOutcome.raised m)
    (hothers : ∀ r ∈ recs, r.title ≠ bad →
      ∃ i t, search r.title = SearchOutcome.found i t) :
    (enrich_loop recs search order).length = recs.length ∧
    (∀ r ∈ enrich_loop recs search order, r.title = bad →
      r.media_id = none ∧ r.media_type = none) ∧
    (∀ r ∈ enrich_loop recs search order, r.title ≠ bad →
      ∃ i t, search r.title = SearchOutcome.found i t ∧
        r.media_id = some i ∧ r.media_type = some t) := by
  have hperm := enrich_loop_perm recs search order horder
  refine ⟨hperm.length_eq.trans (List.length_map _ _), ?_, ?_⟩
  · intro r hr hrt
    rcases List.mem_map.mp (hperm.mem_iff.mp hr) with ⟨r0, hr0, rfl⟩
    have ht0 : r0.title = bad := by
      simpa [apply_enrichment_title] using hrt
    rcases hbad with hnb | ⟨m, hnb⟩ <;>
      simp [apply_enrichment, enrich_recommendation_with_jellyseerr, ht0, hnb]
  · intro r hr hrt
    rcases List.mem_map.mp (hperm.mem_iff.mp hr) with ⟨r0, hr0, rfl⟩
    have ht0 : r0.title ≠ bad := by
      simpa [apply_enrichment_title] using hrt
    rcases hothers r0 hr0 ht0 with ⟨i, t, hfound⟩
    refine ⟨i, t, ?_, ?_⟩
    · simpa [apply_enrichment_title] using hfound
    · simp [apply_enrichment, enrich_recommendation_with_jellyseerr, hfound]

/-- Concrete instantiation of the C8 theorem: three recommendations, the
lookup for "B" finds nothing, completion order `[2, 0, 1]`. -/
theorem c8_fault_isolation_witness :
    (enrich_loop [recA, recB, recC] search_one_bad [2, 0, 1]).length =
      [recA, recB, recC].length ∧
    (∀ r ∈ enrich_loop [recA, recB, recC] search_one_bad [2, 0, 1], r.title = "B" →
      r.media_id = none ∧ r.media_type = none) ∧
    (∀ r ∈ enrich_loop [recA, recB, recC] search_one_bad [2, 0, 1], r.title ≠ "B" →
      ∃ i t, search_one_bad r.title = SearchOutcome.found i t ∧
        r.media_id = some i ∧ r.media_type = some t) := by
  refine c8_fault_isolation [recA, recB, recC] search_one_bad [2, 0, 1] "B"
    (by decide) (Or.inl (by decide)) ?_
  intro r hr hne
  rcases List.mem_cons.mp hr with rfl | hr
  · exact ⟨1, "movie", rfl⟩
  rcases List.mem_cons.mp hr with rfl | hr
  · exact absurd rfl hne
  rcases List.mem_cons.mp hr with rfl | hr
  · exact ⟨3, "tv", rfl⟩
  · simp at hr

/-! Section: Claim C2 — exclusion set completeness -/

theorem extract_titles_map_fstr (l : List String) :
    extract_titles_from_flexible_list (l.map FlexItem.fstr) = l := by
  unfold extract_titles_from_flexible_list
  rw [List.filterMap_map]
  exact List.filterMap_eq_map_iff_forall_eq_some.mpr (fun s _ => rfl) ▸ l.map_id

/-- Claim C2: the set of titles in the prompt's excluded-titles block is
exactly the union of the four exclusion sets — watched (remote titles plus
manual movies plus manual series), watchlist (both sub-lists), blacklist
(`do_not_recommend`) and available-but-unwatched — with no omissions and no
extras, including when the sets overlap. -/
theorem c2_exclusion_completeness (jellyfin_titles : List String) (u : UserData) :
    (prompt_excluded_titles jellyfin_titles u).toFinset =
      (jellyfin_titles ++ titles_of u.movies ++ titles_of u.series).toFinset ∪
      (titles_of u.watchlist.movies ++ titles_of u.watchlist.series).toFinset ∪
      (titles_of u.do_not_recommend).toFinset ∪
      (titles_of u.available_but_unwatched).toFinset := by
  have hms : ∀ (l : List String) (x : String),
      x ∈ List.mergeSort l (fun a b => a ≤ b) ↔ x ∈ l :=
    fun l x => (List.mergeSort_perm l _).mem_iff
  ext x
  simp only [prompt_excluded_titles, excluded_titles_of_prompt,
    extract_titles_map_fstr, full_watched_list, watchlist_titles,
    List.mem_toFinset, Finset.mem_union, List.mem_append, hms, List.mem_dedup]
  tauto

/-! Section: Claim C3 — merge import precedence -/

/-- Local record: "Inception" as a legacy bare string in `movies`. -/
def inception_local : UserData :=
  { empty_user with movies := [MediaEntry.legacy "Inception"] }

/-- Imported record: "Inception" as a structured entry with id 27205. -/
def inception_import : UserData :=
  { empty_user with
      movies := [MediaEntry.entry "Inception" "movie" (some 27205)] }

/-- Claim C3 fails on the code: `deduplicate_list` keeps the first occurrence
of each title regardless of its shape (contradicting its own docstring,
"keeping new dict format when possible").  Merging a record where "Inception"
is a local legacy string and an imported structured entry yields exactly one
entry — but in legacy string form, the structured entry being discarded. -/
theorem c3_merge_keeps_first_occurrence :
    (merge_user_data inception_local inception_import).movies =
      [MediaEntry.legacy "Inception"] := by decide

/-! Section: Claim C9 — merge frame effect -/

/-- A record whose `available_but_unwatched` and `jellyseerr_available`
fields are non-empty. -/
def avail_user : UserData :=
  { empty_user with
      available_but_unwatched := [create_media_entry "X" "movie" none]
      jellyseerr_available := { movies := [create_media_entry "Y" "movie" none]
                                series := [] } }

/-- Claim C9 as stated is false: merging even an empty import silently drops
the record's `available_but_unwatched` entries — the rebuilt `db[username]`
dict contains only the five merged lists and the two sync metadata keys. -/
theorem c9_merge_drops_available :
    (merge_user_data avail_user empty_user).available_but_unwatched ≠
      avail_user.available_but_unwatched := by decide

/-- Claim C9 amended: the merge rebuilds the record with the five merged
lists plus the carried-over `jellyfin_synced_at` / `jellyfin_total_watched`
sync metadata; `available_but_unwatched` and `jellyseerr_available` are not
carried over — they come out empty (the keys are absent from the rebuilt
dict), so those entries are silently dropped by every merge. -/
theorem c9_merge_frame_amended (current imported : UserData) :
    (merge_user_data current imported).available_but_unwatched = [] ∧
    (merge_user_data current imported).jellyseerr_available =
      { movies := [], series := [] } ∧
    (merge_user_data current imported).jellyfin_synced_at =
      current.jellyfin_synced_at ∧
    (merge_user_data current imported).jellyfin_total_watched =
      current.jellyfin_total_watched :=
  ⟨rfl, rfl, rfl, rfl⟩

/-! Section: Claim C6 — AI parse failure signalling -/

/-- Claim C6 as stated is false: the return value on a JSON parse failure is
`None`, the same value returned when Gemini produces an empty/missing
response, so the caller (which only tests truthiness of the return) cannot
distinguish "malformed results" from "no results". -/
theorem c6_parse_failure_counterexample :
    (get_gemini_recommendations true GeminiResponse.invalidJson).1 =
      (get_gemini_recommendations true GeminiResponse.noText).1 := rfl

/-- Claim C6 amended: on a parse failure `get_gemini_recommendations` returns
`None` immediately (the function carries no retry decorator, so a malformed
response is not retried) and surfaces a user-visible parse-error message; that
message — not the return value — is what distinguishes the parse failure from
the empty-response case, which returns the same `None` with no error message.
Any successfully parsed list, even the empty one, is returned as-is and is
distinguishable from the parse-failure `None`. -/
theorem c6_parse_failure_amended :
    (get_gemini_recommendations true GeminiResponse.invalidJson).1 = none ∧
    (get_gemini_recommendations true GeminiResponse.invalidJson).2.isSome = true ∧
    (get_gemini_recommendations true GeminiResponse.noText).2 = none ∧
    (get_gemini_recommendations true GeminiResponse.invalidJson).2 ≠
      (get_gemini_recommendations true GeminiResponse.noText).2 ∧
    (∀ recs : List Rec,
      (get_gemini_recommendations true (GeminiResponse.parsed recs)).1 = some recs) := by
  refine ⟨rfl, rfl, rfl, by decide, fun recs => rfl⟩

/-! Section: Claim C10 — save_manual_db validation -/

/-- Claim C10: for any non-dict value, `save_manual_db` returns normally (the
`ValueError` is raised before the backup copy and caught by the surrounding
`except Exception`, which only shows an error message): the database file and
its backup are byte-for-byte unchanged and nothing is written. -/
theorem c10_save_rejects_non_dict (db : PyObj) (fs : FileSystem)
    (h : isDict db = false) :
    save_manual_db db fs = (fs, true) := by
  simp [save_manual_db, h]

/-- Concrete instantiation of the C10 theorem: saving a bare string leaves
both files untouched. -/
theorem c10_save_rejects_non_dict_witness :
    save_manual_db (PyObj.pstr "oops")
      { database_file := some "olddb", backup_file := some "oldbak" } =
      ({ database_file := some "olddb", backup_file := some "oldbak" }, true) :=
  c10_save_rejects_non_dict (PyObj.pstr "oops")
    { database_file := some "olddb", backup_file := some "oldbak" } rfl

/-! Section: Claim C4 — blacklist removes from watchlist -/

/-- A record with "T" on both watchlist sub-lists and an empty blacklist. -/
def both_lists_user : UserData :=
  { empty_user with
      watchlist := { movies := [MediaEntry.legacy "T"]
                     series := [MediaEntry.legacy "T"] } }

/-- Claim C4 as stated is false: when the title sits in both watchlist
sub-lists, the removal loop in `handle_blacklist_add` breaks after the first
hit, so after blacklisting "T" the `series` sub-list still contains it. -/
theorem c4_blacklist_counterexample :
    ((handle_blacklist_add "T" "Elokuva" [] both_lists_user).1).watchlist.series =
      [MediaEntry.legacy "T"] := by decide

/-- Claim C4 amended: provided the title is not already blacklisted (otherwise
the handler is a no-op and removes nothing), each watchlist sub-list contains
the title at most once (the record invariant), and the title is not present in
both sub-lists at the same time, blacklisting it leaves it absent from both
`watchlist.movies` and `watchlist.series`; the removal loop stops at the first
sub-list that contains the title. -/
theorem c4_blacklist_amended (title radio : String) (recommendations : List Rec)
    (u : UserData)
    (h0 : find_media_in_list title u.do_not_recommend = none)
    (h1 : ¬((∃ e ∈ u.watchlist.movies, get_media_title e = title) ∧
            (∃ e ∈ u.watchlist.series, get_media_title e = title)))
    (h2 : List.countP (fun x => get_media_title x = title) u.watchlist.movies ≤ 1)
    (h3 : List.countP (fun x => get_media_title x = title) u.watchlist.series ≤ 1) :
    (∀ e ∈ ((handle_blacklist_add title radio recommendations u).1).watchlist.movies,
      get_media_title e ≠ title) ∧
    (∀ e ∈ ((handle_blacklist_add title radio recommendations u).1).watchlist.series,
      get_media_title e ≠ title) := by
  have hwl : ((handle_blacklist_add title radio recommendations u).1).watchlist =
      remove_from_watchlist_first title u.watchlist := by
    unfold handle_blacklist_add
    rw [h0]
  rw [hwl]
  unfold remove_from_watchlist_first
  cases hm : find_media_in_list title u.watchlist.movies with
  | some p =>
    obtain ⟨i, e⟩ := p
    simp only
    constructor
    · exact erase_of_found title u.watchlist.movies i e hm h2
    · have hmem : ∃ e2 ∈ u.watchlist.movies, get_media_title e2 = title :=
        ⟨e, find_media_some_mem title _ i e hm, find_media_some_title title _ i e hm⟩
      intro x hx hxt
      exact h1 ⟨hmem, ⟨x, hx, hxt⟩⟩
  | none =>
    cases hs : find_media_in_list title u.watchlist.series with
    | some p =>
      obtain ⟨i, e⟩ := p
      simp only
      exact ⟨(find_media_eq_none_iff title u.watchlist.movies).mp hm,
        erase_of_found title u.watchlist.series i e hs h3⟩
    | none =>
      simp only
      exact ⟨(find_media_eq_none_iff title u.watchlist.movies).mp hm,
        (find_media_eq_none_iff title u.watchlist.series).mp hs⟩

/-- Concrete instantiation of the amended C4 theorem: "T" only on the series
sub-list ends absent from both sub-lists after blacklisting. -/
theorem c4_blacklist_amended_witness :
    (∀ e ∈ ((handle_blacklist_add "T" "Elokuva" []
        { empty_user with
            watchlist := { movies := [], series := [MediaEntry.legacy "T"] } }).1).watchlist.movies,
      get_media_title e ≠ "T") ∧
    (∀ e ∈ ((handle_blacklist_add "T" "Elokuva" []
        { empty_user with
            watchlist := { movies := [], series := [MediaEntry.legacy "T"] } }).1).watchlist.series,
      get_media_title e ≠ "T") :=
  c4_blacklist_amended "T" "Elokuva" []
    { empty_user with
        watchlist := { movies := [], series := [MediaEntry.legacy "T"] } }
    (by decide) (by decide) (by decide) (by decide)

/-! Section: Claim C5 — per-list title uniqueness under the move handler -/

/-- A record with "Dune" both already watched and on the watchlist. -/
def dune_user : UserData :=
  { empty_user with
      movies := [create_media_entry "Dune" "movie" none]
      watchlist := { movies := [MediaEntry.legacy "Dune"], series := [] } }

/-- Claim C5 as stated is false: `handle_watchlist_mark_watched` appends to
the watched list without a `find_media_in_list` check on that destination, so
moving "Dune" from the watchlist while "Dune" is already watched leaves two
entries titled "Dune" in `movies`, breaking the per-list uniqueness invariant. -/
theorem c5_mark_watched_counterexample :
    List.countP (fun x => get_media_title x = "Dune")
      ((handle_watchlist_mark_watched "Dune" "movies" dune_user).1).movies = 2 := by
  decide

/-- Claim C5 amended: the plain add handlers do guard every insert with
`find_media_in_list`, but `handle_watchlist_mark_watched` does not check the
destination watched list; the move therefore preserves per-list title
uniqueness only when the moved title is not already present in the
destination list — in that case the destination ends with at most one entry
carrying the title. -/
theorem c5_mark_watched_amended (title key : String) (u : UserData)
    (h : ∀ e ∈ (if key = "movies" then u.movies else u.series),
      get_media_title e ≠ title) :
    List.countP (fun x => get_media_title x = title)
      (if key = "movies" then
        ((handle_watchlist_mark_watched title key u).1).movies
      else ((handle_watchlist_mark_watched title key u).1).series) ≤ 1 := by
  have hzero : List.countP (fun x => get_media_title x = title)
      (if key = "movies" then u.movies else u.series) = 0 :=
    List.countP_eq_zero.mpr (by intro a ha; simpa using h a ha)
  by_cases hk : key = "movies" <;>
    simp only [hk, if_true, if_false, reduceIte] at hzero ⊢ <;>
    [cases hm : find_media_in_list title u.watchlist.movies with
      | some p => ?_ | none => ?_;
     cases hm : find_media_in_list title u.watchlist.series with
      | some p => ?_ | none => ?_]
  case pos.some =>
    obtain ⟨i, e⟩ := p
    have he : get_media_title e = title := find_media_some_title title _ i e hm
    simp only [handle_watchlist_mark_watched, reduceIte, hm, List.countP_append]
    rw [hzero]
    have : ∀ me : MediaEntry,
        get_media_title me = title →
        List.countP (fun x => get_media_title x = title) [me] = 1 := by
      intro me hme; simp [List.countP_cons, hme]
    split
    · simp [this e he]
    · simp [this (create_media_entry (get_media_title e) "movie" none)
        (by simp [get_media_title_create, he])]
  case pos.none =>
    simp only [handle_watchlist_mark_watched, reduceIte, hm]
    omega
  case neg.some =>
    obtain ⟨i, e⟩ := p
    have he : get_media_title e = title := find_media_some_title title _ i e hm
    simp only [handle_watchlist_mark_watched, reduceIte, hk, hm, List.countP_append]
    rw [hzero]
    have : ∀ me : MediaEntry,
        get_media_title me = title →
        List.countP (fun x => get_media_title x = title) [me] = 1 := by
      intro me hme; simp [List.countP_cons, hme]
    split
    · simp [this e he]
    · simp [this (create_media_entry (get_media_title e) "tv" none)
        (by simp [get_media_title_create, he])]
  case neg.none =>
    simp only [handle_watchlist_mark_watched, reduceIte, hk, hm]
    omega

/-- A record with "Dune" only on the watchlist, not yet watched. -/
def watch_only_user : UserData :=
  { empty_user with
      watchlist := { movies := [MediaEntry.legacy "Dune"], series := [] } }

/-- Concrete instantiation of the amended C5 theorem. -/
theorem c5_mark_watched_amended_witness :
    List.countP (fun x => get_media_title x = "Dune")
      (if ("movies" : String) = "movies" then
        ((handle_watchlist_mark_watched "Dune" "movies" watch_only_user).1).movies
      else ((handle_watchlist_mark_watched "Dune" "movies" watch_only_user).1).series) ≤ 1 :=
  c5_mark_watched_amended "Dune" "movies" watch_only_user (by decide)

/-! Section: Claim C7 — idempotent add across entry formats -/

theorem find_media_append_isSome (t : String) (e : MediaEntry)
    (he : get_media_title e = t) :
    ∀ l : List MediaEntry, (find_media_in_list t (l ++ [e])).isSome = true
  | [] => by simp [find_media_in_list, he]
  | a :: rest => by
    by_cases ha : get_media_title a = t
    · simp [find_media_in_list, ha]
    · simp only [List.cons_append, find_media_in_list, if_neg ha]
      have hrec := find_media_append_isSome t e he rest
      cases hm : find_media_in_list t (rest ++ [e]) with
      | none => rw [hm] at hrec; simp at hrec
      | some p => simp

/-- Claim C7: adding a title to the watched list twice leaves the record as
after one add, with the second call signalling "already exists"; and when any
entry with the same title is already on the target list — legacy bare string
or structured alike — the add is a no-op signalling "already exists". -/
theorem c7_idempotent_add (title radio : String) (tmdb_id : Option Int)
    (u : UserData) :
    handle_watched_add title radio tmdb_id
        (handle_watched_add title radio tmdb_id u).1 =
      ((handle_watched_add title radio tmdb_id u).1, false) ∧
    (∀ e ∈ (if radio = "Elokuva" then u.movies else u.series),
      get_media_title e = title →
        handle_watched_add title radio tmdb_id u = (u, false)) := by
  constructor
  · by_cases hr : radio = "Elokuva"
    · cases hf : find_media_in_list title u.movies with
      | some p =>
        simp [handle_watched_add, hr, hf]
      | none =>
        have hsome := find_media_append_isSome title
          (create_media_entry title "movie" tmdb_id) rfl u.movies
        obtain ⟨p, hp⟩ := Option.isSome_iff_exists.mp hsome
        simp [handle_watched_add, hr, hf, hp]
    · cases hf : find_media_in_list title u.series with
      | some p =>
        simp [handle_watched_add, hr, hf]
      | none =>
        have hsome := find_media_append_isSome title
          (create_media_entry title "tv" tmdb_id) rfl u.series
        obtain ⟨p, hp⟩ := Option.isSome_iff_exists.mp hsome
        simp [handle_watched_add, hr, hf, hp]
  · intro e he het
    by_cases hr : radio = "Elokuva" <;> simp only [hr, reduceIte] at he
    · have : (find_media_in_list title u.movies).isSome = true := by
        rcases hm : find_media_in_list title u.movies with _ | p
        · exact absurd het ((find_media_eq_none_iff title u.movies).mp hm e he)
        · rfl
      obtain ⟨p, hp⟩ := Option.isSome_iff_exists.mp this
      simp [handle_watched_add, hr, hp]
    · have : (find_media_in_list title u.series).isSome = true := by
        rcases hm : find_media_in_list title u.series with _ | p
        · exact absurd het ((find_media_eq_none_iff title u.series).mp hm e he)
        · rfl
      obtain ⟨p, hp⟩ := Option.isSome_iff_exists.mp this
      simp [handle_watched_add, hr, hp]

/-- A record with a legacy bare-string "Dune" on the watched movies list. -/
def legacy_dune_user : UserData :=
  { empty_user with movies := [MediaEntry.legacy "Dune"] }

/-- Concrete instantiation of the C7 theorem: adding a structured "Dune"
entry over an existing legacy bare-string "Dune" is a no-op signalling
"already exists". -/
theorem c7_idempotent_add_witness :
    handle_watched_add "Dune" "Elokuva" (some 438631) legacy_dune_user =
      (legacy_dune_user, false) :=
  (c7_idempotent_add "Dune" "Elokuva" (some 438631) legacy_dune_user).2
    (MediaEntry.legacy "Dune") (by decide) rfl

end App
